import Mathlib

/-!
Verification development for the `pnm_retreat_23` repository: three Jupyter
notebooks (`atomic_models_with_ase`, `image_simulation_with_abtem`,
`image_simulation_with_abtem_supplement`, the last file carrying an appended
companion document that builds a cluster-on-carbon model).  The notebooks are
straight-line Python glue code driving the external ASE and abTEM libraries.

We embed the Python subset the notebooks use as a small AST, transcribe every
code cell, and prove the specification's claims as properties of that
transcription, together with focused semantic models of the few external
calls whose behaviour the claims mention (file-store round trips, seeded
Poisson noise, the Sr-to-La substitution arithmetic, the task scheduler).

Analysis functions over the AST take an explicit fuel argument so that they
are structurally recursive and compute by kernel reduction; `fuelBound`
strictly exceeds the nesting depth of every expression and statement in the
transcriptions, so on the transcribed programs the fuel never runs out.
-/

namespace PnmRetreat

set_option maxRecDepth 100000

/-- Expressions of the Python subset appearing in the notebooks. -/
inductive PyExp : Type where
  /-- a bare identifier -/
  | name (x : String)
  /-- a string literal -/
  | strL (s : String)
  /-- an f-string literal; the brace placeholders are kept verbatim in `s`
  and the interpolated expressions are carried in `embedded` -/
  | fstrL (s : String) (embedded : List PyExp)
  /-- an integer literal -/
  | intL (n : Int)
  /-- a float literal, carried exactly as a rational -/
  | ratL (q : Rat)
  /-- a boolean literal -/
  | boolL (b : Bool)
  /-- attribute access `e.f` -/
  | attr (e : PyExp) (f : String)
  /-- a call `f(args..., kwargs...)` -/
  | call (f : PyExp) (args : List PyExp) (kwargs : List (String × PyExp))
  /-- a tuple display -/
  | tupE (es : List PyExp)
  /-- a list display -/
  | listE (es : List PyExp)
  /-- a dict display with string keys -/
  | dictE (entries : List (String × PyExp))
  /-- a binary operation -/
  | binop (op : String) (a b : PyExp)
  /-- a comparison -/
  | cmp (op : String) (a b : PyExp)
  /-- subscription `e[i]` -/
  | subscript (e i : PyExp)
  /-- a slice `lo:hi:step` (used inside subscripts) -/
  | sliceL (lo hi step : Option PyExp)
  /-- a starred argument `*e` -/
  | star (e : PyExp)
  /-- a lambda expression -/
  | lam (params : List String) (body : PyExp)
  deriving Repr

/-- Assignment targets. -/
inductive PyTarget : Type where
  /-- a plain variable -/
  | var (x : String)
  /-- a (possibly nested) tuple of targets -/
  | tupT (ts : List PyTarget)
  /-- an attribute target `e.f` -/
  | attrT (e : PyExp) (f : String)
  /-- a subscript target `e[i]` -/
  | indexT (e : PyExp) (i : PyExp)
  deriving Repr

/-- Statements of the Python subset, including the control-flow forms the
notebooks could have used but (as we prove) never do. -/
inductive PyStmt : Type where
  /-- `import m` / `import m as al` -/
  | importM (m : String) (al : Option String)
  /-- `from m import names` -/
  | importFrom (m : String) (names : List String)
  /-- an IPython magic or help line -/
  | magic (s : String)
  /-- an assignment -/
  | assign (t : PyTarget) (e : PyExp)
  /-- an augmented assignment `t op= e` -/
  | augAssign (t : PyTarget) (op : String) (e : PyExp)
  /-- a bare expression statement -/
  | exprS (e : PyExp)
  /-- a function definition -/
  | funcDef (nm : String) (ps : List String) (body : List PyStmt)
  /-- a class definition -/
  | classDef (nm : String) (body : List PyStmt)
  /-- a `for` loop -/
  | forS (t : PyTarget) (it : PyExp) (body : List PyStmt)
  /-- a `while` loop -/
  | whileS (c : PyExp) (body : List PyStmt)
  /-- an `if` statement -/
  | ifS (c : PyExp) (thn els : List PyStmt)
  /-- a `try` statement with handler, else and finally blocks -/
  | tryS (body handler els fin : List PyStmt)
  /-- a `raise` statement -/
  | raiseS (e : Option PyExp)
  deriving Repr

/-- Fuel for the AST traversals; strictly exceeds the nesting depth of every
expression and statement in the transcriptions below. -/
def fuelBound : Nat := 64

/-- Number of call expressions inside an expression, i.e. the external calls
the expression performs when evaluated (a lambda body is not evaluated at
definition time). -/
def expNCalls : Nat → PyExp → Nat
  | 0, _ => 0
  | fu + 1, e =>
    match e with
    | .name _ => 0
    | .strL _ => 0
    | .fstrL _ emb => (emb.map (expNCalls fu)).sum
    | .intL _ => 0
    | .ratL _ => 0
    | .boolL _ => 0
    | .attr e _ => expNCalls fu e
    | .call f as ks =>
        1 + expNCalls fu f + (as.map (expNCalls fu)).sum
          + (ks.map (fun kv => expNCalls fu kv.2)).sum
    | .tupE es => (es.map (expNCalls fu)).sum
    | .listE es => (es.map (expNCalls fu)).sum
    | .dictE en => (en.map (fun kv => expNCalls fu kv.2)).sum
    | .binop _ a b => expNCalls fu a + expNCalls fu b
    | .cmp _ a b => expNCalls fu a + expNCalls fu b
    | .subscript e i => expNCalls fu e + expNCalls fu i
    | .sliceL lo hi st =>
        (lo.map (expNCalls fu)).getD 0 + (hi.map (expNCalls fu)).getD 0
          + (st.map (expNCalls fu)).getD 0
    | .star e => expNCalls fu e
    | .lam _ _ => 0

/-- Number of call expressions inside an assignment target. -/
def targetNCalls : Nat → PyTarget → Nat
  | 0, _ => 0
  | fu + 1, t =>
    match t with
    | .var _ => 0
    | .tupT ts => (ts.map (targetNCalls fu)).sum
    | .attrT e _ => expNCalls fuelBound e
    | .indexT e i => expNCalls fuelBound e + expNCalls fuelBound i

/-- External calls a straight-line statement performs when executed. -/
def stmtSelfCalls : PyStmt → Nat
  | .importM _ _ => 0
  | .importFrom _ _ => 0
  | .magic _ => 0
  | .assign t e => expNCalls fuelBound e + targetNCalls fuelBound t
  | .augAssign t _ e => expNCalls fuelBound e + targetNCalls fuelBound t
  | .exprS e => expNCalls fuelBound e
  | .funcDef _ _ _ => 0
  | .classDef _ _ => 0
  | .forS _ it _ => expNCalls fuelBound it
  | .whileS c _ => expNCalls fuelBound c
  | .ifS c _ _ => expNCalls fuelBound c
  | .tryS _ _ _ _ => 0
  | .raiseS e => (e.map (expNCalls fuelBound)).getD 0

/-- Total number of external calls a straight-line program performs. -/
def totalCalls (p : List PyStmt) : Nat := (p.map stmtSelfCalls).sum

/-! ## Transcription of `atomic_models_with_ase.ipynb` (code cells, in order) -/

/-- The four statements of the Sr-to-La substitution cell (cell "25") of
`atomic_models_with_ase.ipynb`:
```
sto_lto = repeated_srtio3.copy()
mask = sto_lto.symbols == "Sr"
mask = mask * (sto_lto.positions[:, 1] < 7.5)
sto_lto.numbers[mask] = 57
``` -/
def srSubstitutionStmts : List PyStmt :=
  [ .assign (.var "sto_lto") (.call (.attr (.name "repeated_srtio3") "copy") [] []),
    .assign (.var "mask") (.cmp "==" (.attr (.name "sto_lto") "symbols") (.strL "Sr")),
    .assign (.var "mask")
      (.binop "*" (.name "mask")
        (.cmp "<"
          (.subscript (.attr (.name "sto_lto") "positions")
            (.tupE [.sliceL none none none, .intL 1]))
          (.ratL 7.5))),
    .assign (.indexT (.attr (.name "sto_lto") "numbers") (.name "mask")) (.intL 57) ]

set_option maxHeartbeats 2000000 in
/-- Full transcription of the code cells of `atomic_models_with_ase.ipynb`. -/
def atomic_models_with_ase : List PyStmt :=
  [ -- cell: imports
    .magic "%matplotlib inline",
    .importM "abtem" none,
    .importM "ase" none,
    .importM "matplotlib.pyplot" (some "plt"),
    .importM "numpy" (some "np"),
    .importFrom "ase.visualize" ["view"],
    -- atoms = ase.Atoms("N2", positions=[(0.0, 0.0, 0.0), (1.0, 0.0, 0.0)], cell=[6, 6, 6])
    .assign (.var "atoms")
      (.call (.attr (.name "ase") "Atoms") [.strL "N2"]
        [("positions", .listE [.tupE [.ratL 0, .ratL 0, .ratL 0],
                               .tupE [.ratL 1, .ratL 0, .ratL 0]]),
         ("cell", .listE [.intL 6, .intL 6, .intL 6])]),
    .exprS (.attr (.name "atoms") "positions"),
    .exprS (.attr (.name "atoms") "numbers"),
    .exprS (.attr (.name "atoms") "cell"),
    -- atoms.numbers[0] = 9
    .assign (.indexT (.attr (.name "atoms") "numbers") (.intL 0)) (.intL 9),
    -- atoms += ase.Atoms("N", positions=[(2.0, 0, 0)])
    .augAssign (.var "atoms") "+"
      (.call (.attr (.name "ase") "Atoms") [.strL "N"]
        [("positions", .listE [.tupE [.ratL 2, .intL 0, .intL 0]])]),
    .exprS (.name "atoms"),
    .exprS (.call (.attr (.name "abtem") "show_atoms") [.name "atoms"] []),
    .importFrom "ase.visualize" ["view"],
    .exprS (.call (.name "view") [.name "atoms"] []),
    -- srtio3 = ase.io.read("srtio3.cif")
    .assign (.var "srtio3")
      (.call (.attr (.attr (.name "ase") "io") "read") [.strL "srtio3.cif"] []),
    .exprS (.call (.attr (.name "abtem") "show_atoms") [.name "srtio3"]
      [("legend", .boolL true)]),
    .exprS (.call (.name "view") [.name "srtio3"] []),
    .importFrom "ase.build" ["surface"],
    -- srtio3_110 = surface(srtio3, indices=(1, 1, 0), layers=2, periodic=True)
    .assign (.var "srtio3_110")
      (.call (.name "surface") [.name "srtio3"]
        [("indices", .tupE [.intL 1, .intL 1, .intL 0]), ("layers", .intL 2),
         ("periodic", .boolL true)]),
    .exprS (.call (.attr (.name "abtem") "show_atoms") [.name "srtio3_110"]
      [("plane", .strL "xy"), ("legend", .boolL true)]),
    -- repeated_srtio3 = srtio3_110.copy(); repeated_srtio3 = srtio3_110 * (3, 4, 10)
    .assign (.var "repeated_srtio3") (.call (.attr (.name "srtio3_110") "copy") [] []),
    .assign (.var "repeated_srtio3")
      (.binop "*" (.name "srtio3_110") (.tupE [.intL 3, .intL 4, .intL 10])),
    .exprS (.call (.attr (.name "abtem") "show_atoms") [.name "repeated_srtio3"]
      [("legend", .boolL true)]),
    .exprS (.call (.attr (.name "abtem") "show_atoms") [.name "repeated_srtio3"]
      [("plane", .strL "xz")]) ]
  ++ srSubstitutionStmts ++
  [ -- sto_lto.center(axis=2, vacuum=5)
    .exprS (.call (.attr (.name "sto_lto") "center") []
      [("axis", .intL 2), ("vacuum", .intL 5)]),
    -- fig, (ax1, ax2) = plt.subplots(1, 2, figsize=(8, 4))
    .assign (.tupT [.var "fig", .tupT [.var "ax1", .var "ax2"]])
      (.call (.attr (.name "plt") "subplots") [.intL 1, .intL 2]
        [("figsize", .tupE [.intL 8, .intL 4])]),
    .exprS (.call (.attr (.name "abtem") "show_atoms") [.name "sto_lto"]
      [("ax", .name "ax1")]),
    .exprS (.call (.attr (.name "abtem") "show_atoms") [.name "sto_lto"]
      [("ax", .name "ax2"), ("plane", .strL "yz")]),
    .importFrom "ase.io" ["write"],
    -- write("sto_lto.cif", sto_lto)
    .exprS (.call (.name "write") [.strL "sto_lto.cif", .name "sto_lto"] []),
    -- graphene = ase.build.graphene(vacuum=2, a=2.46)
    .assign (.var "graphene")
      (.call (.attr (.attr (.name "ase") "build") "graphene") []
        [("vacuum", .intL 2), ("a", .ratL 2.46)]),
    .exprS (.call (.attr (.name "abtem") "show_atoms") [.name "graphene"] []),
    -- orthogonal_graphene, transform = abtem.orthogonalize_cell(graphene, return_transform=True)
    .assign (.tupT [.var "orthogonal_graphene", .var "transform"])
      (.call (.attr (.name "abtem") "orthogonalize_cell") [.name "graphene"]
        [("return_transform", .boolL true)]),
    .exprS (.call (.attr (.name "abtem") "show_atoms") [.name "orthogonal_graphene"] []) ]

/-! ## Transcription of `image_simulation_with_abtem.ipynb` (code cells, in order) -/

set_option maxHeartbeats 2000000 in
/-- Full transcription of the code cells of `image_simulation_with_abtem.ipynb`. -/
def image_simulation_with_abtem : List PyStmt :=
  [ .magic "%matplotlib ipympl",
    .importM "abtem" none,
    .importM "ase" none,
    .importM "matplotlib.pyplot" (some "plt"),
    .importM "numpy" (some "np"),
    .exprS (.call (.attr (.attr (.name "abtem") "config") "set")
      [.dictE [("visualize.cmap", .strL "viridis")]] []),
    .exprS (.call (.attr (.attr (.name "abtem") "config") "set")
      [.dictE [("visualize.continuous_update", .boolL true)]] []),
    .exprS (.call (.attr (.attr (.name "abtem") "config") "set")
      [.dictE [("visualize.autoscale", .boolL true)]] []),
    .exprS (.call (.attr (.attr (.name "abtem") "config") "set")
      [.dictE [("device", .strL "cpu")]] []),
    .exprS (.call (.attr (.attr (.name "abtem") "config") "set")
      [.dictE [("fft", .strL "fftw")]] []),
    .exprS (.attr (.name "abtem") "__version__"),
    -- atoms = ase.io.read("sto_lto.cif")
    .assign (.var "atoms")
      (.call (.attr (.attr (.name "ase") "io") "read") [.strL "sto_lto.cif"] []),
    .assign (.tupT [.var "fig", .tupT [.var "ax1", .var "ax2"]])
      (.call (.attr (.name "plt") "subplots") [.intL 1, .intL 2] []),
    .exprS (.call (.attr (.name "abtem") "show_atoms") [.name "atoms"]
      [("ax", .name "ax1"), ("plane", .strL "xy"), ("title", .strL "Beam view"),
       ("legend", .boolL true)]),
    .exprS (.call (.attr (.name "abtem") "show_atoms") [.name "atoms"]
      [("ax", .name "ax2"), ("plane", .strL "yz"), ("title", .strL "Side view")]),
    -- potential = abtem.Potential(atoms, sampling=0.05, slice_thickness=2)
    .assign (.var "potential")
      (.call (.attr (.name "abtem") "Potential") [.name "atoms"]
        [("sampling", .ratL 0.05), ("slice_thickness", .intL 2)]),
    .exprS (.call (.name "len") [.name "potential"] []),
    -- potential_array = potential.build()
    .assign (.var "potential_array") (.call (.attr (.name "potential") "build") [] []),
    .exprS (.attr (.name "potential_array") "array"),
    .exprS (.call (.attr (.name "potential_array") "compute") [] []),
    .exprS (.attr (.name "potential_array") "array"),
    .exprS (.call (.attr (.name "potential_array") "show") [] [("cbar", .boolL true)]),
    .exprS (.call (.attr (.call (.attr (.name "potential_array") "to_images") [] []) "show")
      [] [("interact", .boolL true), ("cbar", .boolL true)]),
    .magic "abtem.Probe?",
    -- probe = abtem.Probe(energy=150e3, defocus=50, semiangle_cutoff=20, Cs=0.)
    .assign (.var "probe")
      (.call (.attr (.name "abtem") "Probe") []
        [("energy", .ratL 150e3), ("defocus", .intL 50), ("semiangle_cutoff", .intL 20),
         ("Cs", .ratL 0)]),
    .exprS (.call (.attr (.attr (.name "probe") "grid") "match") [.name "potential"] []),
    -- probe_waves = probe.build()
    .assign (.var "probe_waves") (.call (.attr (.name "probe") "build") [] []),
    .exprS (.attr (.name "probe_waves") "array"),
    .exprS (.call (.attr (.name "probe_waves") "compute") [] []),
    .exprS (.call (.attr (.call (.attr (.name "probe_waves") "intensity") [] []) "show")
      [] [("title", .strL "Probe intensity")]),
    .exprS (.call
      (.attr (.call (.attr (.name "probe_waves") "diffraction_patterns") [] []) "show")
      [] [("title", .strL "Reciprocal space probe intensity"), ("units", .strL "mrad")]),
    -- focal_series = np.linspace(0, 200, 5)
    .assign (.var "focal_series")
      (.call (.attr (.name "np") "linspace") [.intL 0, .intL 200, .intL 5] []),
    .assign (.var "focal_series_probe")
      (.call (.attr (.name "abtem") "Probe") []
        [("energy", .ratL 200e3), ("defocus", .name "focal_series"),
         ("semiangle_cutoff", .intL 20), ("extent", .intL 10), ("sampling", .ratL 0.05)]),
    .exprS (.call
      (.attr (.call (.attr (.call (.attr (.name "focal_series_probe") "build") [] [])
        "compute") [] []) "show") [] [("interact", .boolL true)]),
    .exprS (.call (.attr (.call (.attr (.name "focal_series_probe") "build") [] []) "show")
      [] [("explode", .boolL true), ("figsize", .tupE [.intL 10, .intL 3])]),
    -- position = [(8, 8), (6, 8), (4, 8)]
    .assign (.var "position")
      (.listE [.tupE [.intL 8, .intL 8], .tupE [.intL 6, .intL 8], .tupE [.intL 4, .intL 8]]),
    -- exit_wave = probe.multislice(potential, scan=position)
    .assign (.var "exit_wave")
      (.call (.attr (.name "probe") "multislice") [.name "potential"]
        [("scan", .name "position")]),
    .exprS (.call (.attr (.name "exit_wave") "compute") [] []),
    .assign (.var "exit_wave_image") (.call (.attr (.name "exit_wave") "intensity") [] []),
    .exprS (.call (.attr (.name "exit_wave_image") "show") [] [("interact", .boolL true)]),
    .assign (.var "exit_wave_diffraction")
      (.call (.attr (.name "exit_wave") "diffraction_patterns") [] [("max_angle", .intL 100)]),
    .exprS (.call (.attr (.name "exit_wave_diffraction") "show") []
      [("interact", .boolL true), ("cbar", .boolL true), ("units", .strL "mrad")]),
    -- scan = abtem.GridScan(start=(0, 0), end=(1 / 3, 1), sampling=probe.ctf.nyquist_sampling,
    --                       fractional=True, potential=potential)
    .assign (.var "scan")
      (.call (.attr (.name "abtem") "GridScan") []
        [("start", .tupE [.intL 0, .intL 0]),
         ("end", .tupE [.binop "/" (.intL 1) (.intL 3), .intL 1]),
         ("sampling", .attr (.attr (.name "probe") "ctf") "nyquist_sampling"),
         ("fractional", .boolL true), ("potential", .name "potential")]),
    .assign (.tupT [.var "fig", .var "ax"])
      (.call (.attr (.name "abtem") "show_atoms") [.name "atoms"] []),
    .exprS (.call (.attr (.name "scan") "add_to_plot") [.name "ax"] [("color", .strL "k")]),
    -- bright/maadf/haadf annular detectors
    .assign (.var "bright")
      (.call (.attr (.name "abtem") "AnnularDetector") []
        [("inner", .intL 0), ("outer", .intL 20)]),
    .assign (.var "maadf")
      (.call (.attr (.name "abtem") "AnnularDetector") []
        [("inner", .intL 50), ("outer", .intL 120)]),
    .assign (.var "haadf")
      (.call (.attr (.name "abtem") "AnnularDetector") []
        [("inner", .intL 100), ("outer", .intL 180)]),
    .assign (.var "detectors") (.listE [.name "bright", .name "maadf", .name "haadf"]),
    -- print(f"alpha_max = {min(probe.cutoff_angles):.1f} mrad")
    .exprS (.call (.name "print")
      [.fstrL "alpha_max = \x7bmin(probe.cutoff_angles):.1f\x7d mrad"
        [.call (.name "min") [.attr (.name "probe") "cutoff_angles"] []]] []),
    .assign (.var "bright_region")
      (.call (.attr (.name "bright") "get_detector_region") [.name "probe"] []),
    .assign (.var "maadf_region")
      (.call (.attr (.name "maadf") "get_detector_region") [.name "probe"] []),
    .assign (.var "haadf_region")
      (.call (.attr (.name "haadf") "get_detector_region") [.name "probe"] []),
    -- stacked_regions = abtem.stack((...), ("bright", "MAADF", "HAADF"))
    .assign (.var "stacked_regions")
      (.call (.attr (.name "abtem") "stack")
        [.tupE [.name "bright_region", .name "maadf_region", .name "haadf_region"],
         .tupE [.strL "bright", .strL "MAADF", .strL "HAADF"]] []),
    .assign (.var "visualization")
      (.call (.attr (.name "stacked_regions") "show") []
        [("explode", .boolL true), ("units", .strL "mrad"),
         ("figsize", .tupE [.intL 8, .intL 4])]),
    -- scanned_measurements = probe.scan(scan=scan, detectors=detectors, potential=potential)
    .assign (.var "scanned_measurements")
      (.call (.attr (.name "probe") "scan") []
        [("scan", .name "scan"), ("detectors", .name "detectors"),
         ("potential", .name "potential")]),
    .exprS (.call (.attr (.name "scanned_measurements") "compute") [] []),
    .assign (.var "stacked_measurements")
      (.call (.attr (.name "abtem") "stack")
        [.name "scanned_measurements", .tupE [.strL "BF", .strL "MAADF", .strL "HAADF"]] []),
    .exprS (.call (.attr (.name "stacked_measurements") "show") [] [("explode", .boolL true)]),
    .assign (.var "interpolated_measurements")
      (.call (.attr (.name "stacked_measurements") "interpolate") [.ratL 0.1] []),
    .exprS (.call (.attr (.name "interpolated_measurements") "show") []
      [("explode", .boolL true)]),
    .assign (.var "blurred_measurements")
      (.call (.attr (.name "interpolated_measurements") "gaussian_filter") [.ratL 0.4] []),
    .exprS (.call (.attr (.name "blurred_measurements") "show") [] [("explode", .boolL true)]),
    -- tiled_measurements = blurred_measurements.tile((8, 3))
    .assign (.var "tiled_measurements")
      (.call (.attr (.name "blurred_measurements") "tile") [.tupE [.intL 8, .intL 3]] []),
    -- noisy_measurements = tiled_measurements.poisson_noise(dose_per_area=1e4, seed=100)
    .assign (.var "noisy_measurements")
      (.call (.attr (.name "tiled_measurements") "poisson_noise") []
        [("dose_per_area", .ratL 1e4), ("seed", .intL 100)]),
    .exprS (.call (.attr (.name "noisy_measurements") "show") []
      [("explode", .boolL true), ("figsize", .tupE [.intL 8, .intL 4])]) ]

/-! ## Transcription of `image_simulation_with_abtem_supplement.ipynb`

The source file contains two documents: the supplement notebook itself and an
appended companion document that builds a cluster-on-carbon model.  We
transcribe both, in order. -/

set_option maxHeartbeats 2000000 in
/-- Transcription of the code cells of the supplement notebook proper. -/
def image_simulation_with_abtem_supplement : List PyStmt :=
  [ .magic "%matplotlib ipympl",
    .importM "abtem" none,
    .importM "ase" none,
    .importM "matplotlib.pyplot" (some "plt"),
    .importM "numpy" (some "np"),
    .exprS (.call (.attr (.attr (.name "abtem") "config") "set")
      [.dictE [("visualize.cmap", .strL "viridis")]] []),
    .exprS (.call (.attr (.attr (.name "abtem") "config") "set")
      [.dictE [("visualize.continuous_update", .boolL true)]] []),
    .exprS (.call (.attr (.attr (.name "abtem") "config") "set")
      [.dictE [("visualize.autoscale", .boolL true)]] []),
    .exprS (.call (.attr (.attr (.name "abtem") "config") "set")
      [.dictE [("device", .strL "cpu")]] []),
    .exprS (.call (.attr (.attr (.name "abtem") "config") "set")
      [.dictE [("fft", .strL "fftw")]] []),
    -- atoms = ase.io.read("sto_lto.cif")
    .assign (.var "atoms")
      (.call (.attr (.attr (.name "ase") "io") "read") [.strL "sto_lto.cif"] []),
    .exprS (.call (.attr (.name "abtem") "show_atoms") [.name "atoms"] []),
    -- plane_wave = abtem.PlaneWave(energy=150e3)
    .assign (.var "plane_wave")
      (.call (.attr (.name "abtem") "PlaneWave") [] [("energy", .ratL 150e3)]),
    -- potential = abtem.Potential(atoms, sampling=0.05, slice_thickness=2, exit_planes=1)
    .assign (.var "potential")
      (.call (.attr (.name "abtem") "Potential") [.name "atoms"]
        [("sampling", .ratL 0.05), ("slice_thickness", .intL 2), ("exit_planes", .intL 1)]),
    -- exit_wave = plane_wave.multislice(potential).compute()
    .assign (.var "exit_wave")
      (.call (.attr (.call (.attr (.name "plane_wave") "multislice")
        [.name "potential"] []) "compute") [] []),
    .exprS (.call (.attr (.name "exit_wave") "show") [] [("interact", .boolL true)]),
    -- Cs = -100e-6 * 1e10
    .assign (.var "Cs") (.binop "*" (.ratL (-100e-6)) (.ratL 1e10)),
    .assign (.var "focal_series")
      (.call (.attr (.name "np") "linspace") [.intL 0, .intL 200, .intL 5] []),
    -- ctf = abtem.CTF(Cs=Cs, energy=150e3, defocus=focal_series)
    .assign (.var "ctf")
      (.call (.attr (.name "abtem") "CTF") []
        [("Cs", .name "Cs"), ("energy", .ratL 150e3), ("defocus", .name "focal_series")]),
    .exprS (.call (.attr (.call (.attr (.name "ctf") "profiles") [] []) "show") [] []),
    -- ctf.semiangle_cutoff = ctf.crossover_angle
    .assign (.attrT (.name "ctf") "semiangle_cutoff") (.attr (.name "ctf") "crossover_angle"),
    -- image = exit_wave.apply_ctf(ctf).intensity()
    .assign (.var "image")
      (.call (.attr (.call (.attr (.name "exit_wave") "apply_ctf") [.name "ctf"] [])
        "intensity") [] []),
    .exprS (.call (.attr (.name "image") "show") [] [("interact", .boolL true)]),
    -- noisy_image = image.tile((2, 2)).poisson_noise(1e4)
    .assign (.var "noisy_image")
      (.call (.attr (.call (.attr (.name "image") "tile") [.tupE [.intL 2, .intL 2]] [])
        "poisson_noise") [.ratL 1e4] []),
    .exprS (.call (.attr (.name "noisy_image") "show") []
      [("title", .strL "HRTEM image"), ("interact", .boolL true)]),
    -- atoms = ase.io.read("sto_lto.cif") (again, for the STEM section)
    .assign (.var "atoms")
      (.call (.attr (.attr (.name "ase") "io") "read") [.strL "sto_lto.cif"] []),
    .assign (.var "potential")
      (.call (.attr (.name "abtem") "Potential") [.name "atoms"]
        [("sampling", .ratL 0.05), ("slice_thickness", .intL 2)]),
    .assign (.var "probe")
      (.call (.attr (.name "abtem") "Probe") []
        [("energy", .ratL 150e3), ("defocus", .intL 50), ("semiangle_cutoff", .intL 20)]),
    .assign (.var "scan")
      (.call (.attr (.name "abtem") "GridScan") []
        [("start", .tupE [.intL 0, .intL 0]),
         ("end", .tupE [.binop "/" (.intL 1) (.intL 3), .intL 1]),
         ("sampling", .attr (.attr (.name "probe") "ctf") "nyquist_sampling"),
         ("fractional", .boolL true), ("potential", .name "potential")]),
    -- detector = abtem.PixelatedDetector(max_angle=100)
    .assign (.var "detector")
      (.call (.attr (.name "abtem") "PixelatedDetector") [] [("max_angle", .intL 100)]),
    -- measurement_4d = probe.scan(scan=scan, potential=potential, detectors=detector)
    .assign (.var "measurement_4d")
      (.call (.attr (.name "probe") "scan") []
        [("scan", .name "scan"), ("potential", .name "potential"),
         ("detectors", .name "detector")]),
    .exprS (.attr (.name "measurement_4d") "array"),
    -- measurement_4d.to_zarr("measurement_4d.zarr")
    .exprS (.call (.attr (.name "measurement_4d") "to_zarr") [.strL "measurement_4d.zarr"] []),
    -- measurement_4d = abtem.from_zarr("measurement_4d.zarr")
    .assign (.var "measurement_4d")
      (.call (.attr (.name "abtem") "from_zarr") [.strL "measurement_4d.zarr"] []),
    .exprS (.attr (.name "measurement_4d") "array"),
    .exprS (.call (.attr (.name "measurement_4d") "show") [] [("interact", .boolL true)]),
    .exprS (.call (.attr (.subscript (.name "measurement_4d") (.tupE [.intL 1, .intL 1]))
      "show") [] []),
    -- polar_binned = measurement_4d.polar_binning(nbins_radial=100, nbins_azimuthal=1)
    .assign (.var "polar_binned")
      (.call (.attr (.name "measurement_4d") "polar_binning") []
        [("nbins_radial", .intL 100), ("nbins_azimuthal", .intL 1)]),
    .exprS (.attr (.name "polar_binned") "array"),
    -- binned_images = polar_binned.to_image_ensemble().compute().interpolate(0.1).tile((3, 1))
    .assign (.var "binned_images")
      (.call (.attr (.call (.attr (.call (.attr (.call
        (.attr (.name "polar_binned") "to_image_ensemble") [] [])
        "compute") [] []) "interpolate") [.ratL 0.1] []) "tile")
        [.tupE [.intL 3, .intL 1]] []),
    .exprS (.call (.attr (.name "binned_images") "show") [] [("interact", .boolL true)]),
    -- center_of_mass = measurement_4d.center_of_mass(units="1/Å")
    .assign (.var "center_of_mass")
      (.call (.attr (.name "measurement_4d") "center_of_mass") [] [("units", .strL "1/Å")]),
    .exprS (.attr (.name "center_of_mass") "array"),
    .assign (.var "interpolated_center_of_mass")
      (.call (.attr (.call (.attr (.name "center_of_mass") "interpolate") [.ratL 0.1] [])
        "tile") [.tupE [.intL 3, .intL 1]] []),
    .exprS (.call (.attr (.call (.attr (.name "interpolated_center_of_mass") "imag") [] [])
      "show") [] [("title", .strL "COM real part"), ("cbar", .boolL true)]),
    .exprS (.call (.attr (.name "interpolated_center_of_mass") "show") []
      [("cbar", .boolL true), ("cmap", .strL "hsluv"), ("title", .strL "COM domain coloring")]),
    .assign (.var "integrated_gradient")
      (.call (.attr (.name "interpolated_center_of_mass") "integrate_gradient") [] []),
    .exprS (.call (.attr (.name "integrated_gradient") "show") [] []),
    .exprS (.name "atoms"),
    -- sigmas = {"O": .1, "Sr": .1, "La": .1, "Ti": .1}
    .assign (.var "sigmas")
      (.dictE [("O", .ratL 0.1), ("Sr", .ratL 0.1), ("La", .ratL 0.1), ("Ti", .ratL 0.1)]),
    -- frozen_phonons = abtem.FrozenPhonons(atoms * (1, 1, 4), sigmas=sigmas, num_configs=8)
    .assign (.var "frozen_phonons")
      (.call (.attr (.name "abtem") "FrozenPhonons")
        [.binop "*" (.name "atoms") (.tupE [.intL 1, .intL 1, .intL 4])]
        [("sigmas", .name "sigmas"), ("num_configs", .intL 8)]),
    .assign (.var "iterator") (.call (.name "iter") [.name "frozen_phonons"] []),
    .assign (.var "config") (.call (.name "next") [.name "iterator"] []),
    .exprS (.call (.attr (.name "abtem") "show_atoms") [.name "config"] [("scale", .ratL 0.5)]),
    .assign (.var "frozen_phonon_potential")
      (.call (.attr (.name "abtem") "Potential") [.name "frozen_phonons"]
        [("sampling", .ratL 0.05), ("slice_thickness", .intL 2)]),
    .exprS (.call (.attr (.call (.attr (.call (.attr (.call
      (.attr (.name "frozen_phonon_potential") "build") [] [])
      "project") [] []) "compute") [] []) "show") [] [("interact", .boolL true)]),
    -- exit_waves = probe.multislice(potential=frozen_phonon_potential)
    .assign (.var "exit_waves")
      (.call (.attr (.name "probe") "multislice") []
        [("potential", .name "frozen_phonon_potential")]),
    .exprS (.attr (.name "exit_waves") "array"),
    .exprS (.call (.attr (.name "exit_waves") "compute") [] []),
    .exprS (.attr (.call (.attr (.name "exit_waves") "diffraction_patterns") [] []) "shape"),
    .exprS (.call (.attr (.call (.attr (.name "exit_waves") "diffraction_patterns") [] [])
      "show") [] [("interact", .boolL true)]),
    .exprS (.attr (.name "probe") "cutoff_angles"),
    .assign (.var "mean_diffraction_pattern")
      (.call (.attr (.call (.attr (.name "exit_waves") "diffraction_patterns") [] [])
        "mean") [.intL 0] []),
    .exprS (.call (.attr (.name "mean_diffraction_pattern") "show") []
      [("power", .ratL 0.25), ("units", .strL "mrad")]),
    .importFrom "ase.io" ["read"],
    -- cluster = read("cluster_on_carbon.cfg")
    .assign (.var "cluster") (.call (.name "read") [.strL "cluster_on_carbon.cfg"] []),
    -- print("Number of atoms: {} \nCell: {:.2f} x {:.2f} x {:.2f}".format(
    --     len(cluster), *np.diag(cluster.cell)))
    .exprS (.call (.name "print")
      [.call (.attr (.strL "Number of atoms: \x7b\x7d \nCell: \x7b:.2f\x7d x \x7b:.2f\x7d x \x7b:.2f\x7d")
        "format")
        [.call (.name "len") [.name "cluster"] [],
         .star (.call (.attr (.name "np") "diag") [.attr (.name "cluster") "cell"] [])] []] []),
    .exprS (.call (.attr (.name "abtem") "show_atoms") [.name "cluster"]
      [("plane", .strL "xz"), ("title", .strL "Side view")]),
    -- cluster_potential = abtem.Potential(cluster, gpts=768, slice_thickness=2)
    .assign (.var "cluster_potential")
      (.call (.attr (.name "abtem") "Potential") [.name "cluster"]
        [("gpts", .intL 768), ("slice_thickness", .intL 2)]),
    -- S = abtem.SMatrix(potential=cluster_potential, interpolation=6, energy=150e3,
    --                   semiangle_cutoff=25)
    .assign (.var "S")
      (.call (.attr (.name "abtem") "SMatrix") []
        [("potential", .name "cluster_potential"), ("interpolation", .intL 6),
         ("energy", .ratL 150e3), ("semiangle_cutoff", .intL 25)]),
    .exprS (.attr (.name "S") "cutoff_angles"),
    .exprS (.call (.attr (.call (.attr (.name "S") "dummy_probes") []
      [("plane", .strL "exit")]) "show") [] []),
    -- ctf = abtem.CTF(defocus=[0, 70])
    .assign (.var "ctf")
      (.call (.attr (.name "abtem") "CTF") [] [("defocus", .listE [.intL 0, .intL 70])]),
    .exprS (.call (.attr (.call (.attr (.name "S") "dummy_probes") []
      [("plane", .strL "exit"), ("ctf", .name "ctf")]) "show") [] [("interact", .boolL true)]),
    .exprS (.attr (.call (.attr (.name "S") "build") [] []) "array"),
    -- plane_waves = S.build().waves
    .assign (.var "plane_waves") (.attr (.call (.attr (.name "S") "build") [] []) "waves"),
    -- plane_waves[:50:10].complex_images().compute().show(interact=True, cbar=True, cmap="hsv")
    .exprS (.call (.attr (.call (.attr (.call (.attr
      (.subscript (.name "plane_waves") (.sliceL none (some (.intL 50)) (some (.intL 10))))
      "complex_images") [] []) "compute") [] []) "show") []
      [("interact", .boolL true), ("cbar", .boolL true), ("cmap", .strL "hsv")]),
    .assign (.var "maadf_detector")
      (.call (.attr (.name "abtem") "AnnularDetector") []
        [("inner", .intL 60), ("outer", .intL 150)]),
    -- image_prism = S.scan(detectors=maadf_detector, max_batch_reduction=50, ctf=ctf)
    .assign (.var "image_prism")
      (.call (.attr (.name "S") "scan") []
        [("detectors", .name "maadf_detector"), ("max_batch_reduction", .intL 50),
         ("ctf", .name "ctf")]),
    .exprS (.attr (.name "image_prism") "array"),
    .exprS (.call (.attr (.name "image_prism") "compute") [] []),
    .exprS (.call (.attr (.call (.attr (.call (.attr (.name "image_prism")
      "gaussian_filter") [.ratL 0.35] []) "interpolate") [.ratL 0.1] []) "show") []
      [("interact", .boolL true)]),
    .assign (.var "exit_waves")
      (.call (.attr (.name "probe") "multislice") []
        [("potential", .name "frozen_phonon_potential")]),
    .exprS (.attr (.name "exit_waves") "array"),
    .assign (.var "exit_waves")
      (.call (.attr (.name "probe") "multislice") []
        [("potential", .name "frozen_phonon_potential")]),
    -- exit_waves.compute(scheduler="threads", num_workers=2)
    .exprS (.call (.attr (.name "exit_waves") "compute") []
      [("scheduler", .strL "threads"), ("num_workers", .intL 2)]),
    .importFrom "dask.distributed" ["Client"],
    -- client = Client(n_workers=4, threads_per_worker=1)
    .assign (.var "client")
      (.call (.name "Client") [] [("n_workers", .intL 4), ("threads_per_worker", .intL 1)]),
    .exprS (.name "client"),
    .assign (.var "exit_waves")
      (.call (.attr (.name "probe") "multislice") []
        [("potential", .name "frozen_phonon_potential")]),
    .exprS (.call (.attr (.name "exit_waves") "compute") [] []) ]

set_option maxHeartbeats 2000000 in
/-- Transcription of the code cells of the companion document appended to the
supplement file (building a Cu cluster on amorphous carbon and exporting it). -/
def supplement_related_doc : List PyStmt :=
  [ .magic "%matplotlib inline",
    .importM "abtem" none,
    .importM "ase" none,
    .importM "matplotlib.pyplot" (some "plt"),
    .importM "numpy" (some "np"),
    .importFrom "ase.visualize" ["view"],
    .importFrom "ase.build" ["bulk"],
    -- carbon = bulk("C", cubic=True)
    .assign (.var "carbon") (.call (.name "bulk") [.strL "C"] [("cubic", .boolL true)]),
    -- carbon *= (14, 14, 14)
    .augAssign (.var "carbon") "*" (.tupE [.intL 14, .intL 14, .intL 14]),
    -- carbon.positions[:] += np.random.randn(len(carbon), 3) * 0.5
    .augAssign (.indexT (.attr (.name "carbon") "positions") (.sliceL none none none)) "+"
      (.binop "*"
        (.call (.attr (.attr (.name "np") "random") "randn")
          [.call (.name "len") [.name "carbon"] [], .intL 3] [])
        (.ratL 0.5)),
    .exprS (.call (.attr (.name "carbon") "wrap") [] []),
    .exprS (.call (.attr (.name "abtem") "show_atoms") [.name "carbon"] []),
    .importFrom "ase.cluster" ["Decahedron"],
    -- cluster = Decahedron("Cu", 10, 2, 0)
    .assign (.var "cluster")
      (.call (.name "Decahedron") [.strL "Cu", .intL 10, .intL 2, .intL 0] []),
    .exprS (.call (.attr (.name "cluster") "rotate") [.strL "x", .intL 30] []),
    .exprS (.call (.attr (.name "abtem") "show_atoms") [.name "cluster"] []),
    .assign (.var "center_height") (.intL 30),
    .assign (.var "translated_cluster") (.call (.attr (.name "cluster") "copy") [] []),
    -- translated_cluster.translate(np.diag(carbon.cell) / 2 + (0, 0, center_height))
    .exprS (.call (.attr (.name "translated_cluster") "translate")
      [.binop "+"
        (.binop "/" (.call (.attr (.name "np") "diag") [.attr (.name "carbon") "cell"] [])
          (.intL 2))
        (.tupE [.intL 0, .intL 0, .name "center_height"])] []),
    -- cluster_on_carbon = carbon + translated_cluster
    .assign (.var "cluster_on_carbon") (.binop "+" (.name "carbon") (.name "translated_cluster")),
    .exprS (.call (.attr (.name "abtem") "show_atoms") [.name "cluster_on_carbon"]
      [("plane", .strL "xz")]),
    .exprS (.call (.attr (.name "cluster_on_carbon") "center") []
      [("axis", .intL 2), ("vacuum", .intL 4)]),
    .assign (.var "rotated") (.call (.attr (.name "cluster_on_carbon") "copy") [] []),
    .exprS (.call (.attr (.name "rotated") "rotate") [.strL "x", .intL 180]
      [("rotate_cell", .boolL true)]),
    .assign (.tupT [.var "fig", .tupT [.var "ax1", .var "ax2"]])
      (.call (.attr (.name "plt") "subplots") [.intL 1, .intL 2]
        [("figsize", .tupE [.intL 10, .intL 4])]),
    .exprS (.call (.attr (.name "abtem") "show_atoms") [.name "rotated"]
      [("plane", .strL "yx"), ("ax", .name "ax1")]),
    .exprS (.call (.attr (.name "abtem") "show_atoms") [.name "cluster_on_carbon"]
      [("plane", .strL "xz"), ("ax", .name "ax2")]),
    .assign (.var "potential")
      (.call (.attr (.name "abtem") "Potential") [.name "cluster_on_carbon"]
        [("sampling", .ratL 0.05)]),
    -- projected = potential.build().to_images().compute()
    .assign (.var "projected")
      (.call (.attr (.call (.attr (.call (.attr (.name "potential") "build") [] [])
        "to_images") [] []) "compute") [] []),
    .assign (.tupT [.var "fig", .var "ax"]) (.call (.attr (.name "plt") "subplots") [] []),
    .assign (.var "visualization")
      (.call (.attr (.name "projected") "show") []
        [("ax", .name "ax"), ("display", .boolL false)]),
    .exprS (.call (.attr (.name "visualization") "axis_off") [] []),
    .exprS (.call (.attr (.name "visualization") "adjust_tight_bbox") [] []),
    .assign (.var "animation")
      (.call (.attr (.name "visualization") "animate") [] [("interval", .intL 100)]),
    -- animation.save("../intro_multislice/potential.gif", writer="pillow")
    .exprS (.call (.attr (.name "animation") "save")
      [.strL "../intro_multislice/potential.gif"] [("writer", .strL "pillow")]),
    -- write("cluster_on_carbon.cfg", cluster_on_carbon)
    .exprS (.call (.name "write") [.strL "cluster_on_carbon.cfg", .name "cluster_on_carbon"] []) ]

/-- The full statement sequence of the supplement source file (both documents). -/
def supplement_file : List PyStmt :=
  image_simulation_with_abtem_supplement ++ supplement_related_doc

/-- The three source files of the repository, as (name, program) pairs. -/
def notebooks : List (String × List PyStmt) :=
  [ ("atomic_models_with_ase.ipynb", atomic_models_with_ase),
    ("image_simulation_with_abtem.ipynb", image_simulation_with_abtem),
    ("image_simulation_with_abtem_supplement.ipynb", supplement_file) ]

/-- All statements of the repository's notebooks, in file order (the
atomic-models notebook first, since the image-simulation notebooks read the
structure file it writes). -/
def allNotebookStmts : List PyStmt :=
  atomic_models_with_ase ++ image_simulation_with_abtem ++ supplement_file

/-! ## Syntactic analysis of the transcribed programs -/

/-- A call site: callee expression, positional arguments, keyword arguments. -/
structure CallSite where
  callee : PyExp
  args : List PyExp
  kwargs : List (String × PyExp)
  deriving Repr

/-- All call sites inside an expression, in evaluation order (sub-calls of the
callee, then the arguments left to right, then the call itself; a lambda body
is not evaluated at definition time). -/
def expCalls : Nat → PyExp → List CallSite
  | 0, _ => []
  | fu + 1, e =>
    match e with
    | .name _ | .strL _ | .intL _ | .ratL _ | .boolL _ => []
    | .fstrL _ emb => (emb.map (expCalls fu)).flatten
    | .attr e _ => expCalls fu e
    | .call f as ks =>
        expCalls fu f ++ (as.map (expCalls fu)).flatten
          ++ (ks.map (fun kv => expCalls fu kv.2)).flatten ++ [⟨f, as, ks⟩]
    | .tupE es => (es.map (expCalls fu)).flatten
    | .listE es => (es.map (expCalls fu)).flatten
    | .dictE en => (en.map (fun kv => expCalls fu kv.2)).flatten
    | .binop _ a b => expCalls fu a ++ expCalls fu b
    | .cmp _ a b => expCalls fu a ++ expCalls fu b
    | .subscript e i => expCalls fu e ++ expCalls fu i
    | .sliceL lo hi st =>
        (lo.map (expCalls fu)).getD [] ++ (hi.map (expCalls fu)).getD []
          ++ (st.map (expCalls fu)).getD []
    | .star e => expCalls fu e
    | .lam _ _ => []

/-- All call sites inside an assignment target. -/
def targetCalls : Nat → PyTarget → List CallSite
  | 0, _ => []
  | fu + 1, t =>
    match t with
    | .var _ => []
    | .tupT ts => (ts.map (targetCalls fu)).flatten
    | .attrT e _ => expCalls fuelBound e
    | .indexT e i => expCalls fuelBound e ++ expCalls fuelBound i

/-- Call sites a statement evaluates when executed (for straight-line
statements; control-flow statements contribute their header expression). -/
def stmtCalls : PyStmt → List CallSite
  | .importM _ _ => []
  | .importFrom _ _ => []
  | .magic _ => []
  | .assign t e => expCalls fuelBound e ++ targetCalls fuelBound t
  | .augAssign t _ e => expCalls fuelBound e ++ targetCalls fuelBound t
  | .exprS e => expCalls fuelBound e
  | .funcDef _ _ _ => []
  | .classDef _ _ => []
  | .forS _ it _ => expCalls fuelBound it
  | .whileS c _ => expCalls fuelBound c
  | .ifS c _ _ => expCalls fuelBound c
  | .tryS _ _ _ _ => []
  | .raiseS e => (e.map (expCalls fuelBound)).getD []

/-- All call sites of a program, in program order. -/
def callsOf (p : List PyStmt) : List CallSite := (p.map stmtCalls).flatten

/-- File-system operations, as recognized syntactically at call sites. -/
inductive FileOp where
  /-- the call writes the file at `path` -/
  | fwrite (path : String)
  /-- the call reads the file at `path` -/
  | fread (path : String)
  deriving Repr, DecidableEq

/-- Callees that read a file in these notebooks: `ase.io.read`, the
`from ase.io import read` alias `read`, and `abtem.from_zarr`. -/
def isReadCallee : PyExp → Bool
  | .attr (.attr (.name "ase") "io") "read" => true
  | .name "read" => true
  | .attr (.name "abtem") "from_zarr" => true
  | _ => false

/-- Callees that write a file in these notebooks: `ase.io.write`, the
`from ase.io import write` alias `write`, the `.to_zarr` method and the
matplotlib animation `.save` method. -/
def isWriteCallee : PyExp → Bool
  | .attr (.attr (.name "ase") "io") "write" => true
  | .name "write" => true
  | .attr _ "to_zarr" => true
  | .attr _ "save" => true
  | _ => false

/-- The file operation a call site performs, when its first positional
argument is a literal path. -/
def callFileOp (c : CallSite) : List FileOp :=
  match c.args with
  | .strL p :: _ =>
      if isReadCallee c.callee then [.fread p]
      else if isWriteCallee c.callee then [.fwrite p] else []
  | _ => []

/-- All file operations a program performs, in program order. -/
def fileOpsOf (p : List PyStmt) : List FileOp := (callsOf p).flatMap callFileOp

/-- The paths a program writes, in program order. -/
def writePaths (p : List PyStmt) : List String :=
  (fileOpsOf p).filterMap fun op =>
    match op with
    | .fwrite q => some q
    | .fread _ => none

/-- Callees that read or write an atomic-structure file (ASE's `ase.io.read`
and `ase.io.write`, also under their `from ase.io import ...` aliases). -/
def isStructureCallee : PyExp → Bool
  | .attr (.attr (.name "ase") "io") "read" => true
  | .name "read" => true
  | .attr (.attr (.name "ase") "io") "write" => true
  | .name "write" => true
  | _ => false

/-- The atomic-structure file operations of a program, in program order. -/
def structureOpsOf (p : List PyStmt) : List FileOp :=
  (callsOf p).flatMap fun c =>
    if isStructureCallee c.callee then callFileOp c else []

/-- The path of a file operation. -/
def FileOp.path : FileOp → String
  | .fwrite q => q
  | .fread q => q

/-- The simulation-engine operations named by the spec. -/
def engineOps : List String := ["multislice", "scan", "build"]

/-- The root identifier of an attribute/call/subscript chain. -/
def rootNameOf : Nat → PyExp → String
  | 0, _ => ""
  | fu + 1, e =>
    match e with
    | .name x => x
    | .attr e _ => rootNameOf fu e
    | .call f _ _ => rootNameOf fu f
    | .subscript e _ => rootNameOf fu e
    | .star e => rootNameOf fu e
    | _ => ""

/-- The engine-operation call sites of a program: each call whose callee is an
attribute named `multislice`, `scan` or `build`, as (receiver root, method). -/
def engineCallsOf (p : List PyStmt) : List (String × String) :=
  (callsOf p).filterMap fun c =>
    match c.callee with
    | .attr e m => if engineOps.contains m then some (rootNameOf fuelBound e, m) else none
    | _ => none

/-- The right-hand sides of all plain-variable assignments to `x`. -/
def bindingsOf (p : List PyStmt) (x : String) : List PyExp :=
  p.filterMap fun st =>
    match st with
    | .assign (.var y) e => if y == x then some e else none
    | _ => none

/-- Is the expression a constructor/factory call on the external `abtem`
module (e.g. `abtem.Probe(...)`, `abtem.Potential(...)`)? -/
def isAbtemConstructorCall : PyExp → Bool
  | .call (.attr (.name "abtem") _) _ _ => true
  | _ => false

/-- Every receiver of an engine-operation call in `p` is a variable whose
every binding in `p` is a call into the external `abtem` module. -/
def engineCallsExternallyBound (p : List PyStmt) : Bool :=
  (engineCallsOf p).all fun rm =>
    !(bindingsOf p rm.1).isEmpty && (bindingsOf p rm.1).all isAbtemConstructorCall

/-- The call sites whose callee is named `nm` (as a bare name or a method). -/
def callsToName (p : List PyStmt) (nm : String) : List CallSite :=
  (callsOf p).filter fun c =>
    match c.callee with
    | .name x => x == nm
    | .attr _ x => x == nm
    | _ => false

/-- The modules a program imports, in program order. -/
def importedModules (p : List PyStmt) : List String :=
  p.filterMap fun st =>
    match st with
    | .importM m _ => some m
    | .importFrom m _ => some m
    | _ => none

/-- Is the statement in the straight-line fragment (an import, a notebook
magic, an assignment, an augmented assignment or an expression statement)? -/
def isStraight : PyStmt → Bool
  | .importM _ _ => true
  | .importFrom _ _ => true
  | .magic _ => true
  | .assign _ _ => true
  | .augAssign _ _ _ => true
  | .exprS _ => true
  | _ => false

/-- The whole program is straight-line. -/
def straightLine (p : List PyStmt) : Bool := p.all isStraight

/-- Does the expression contain a lambda (an anonymous function definition)? -/
def expHasLam : Nat → PyExp → Bool
  | 0, _ => false
  | fu + 1, e =>
    match e with
    | .name _ | .strL _ | .intL _ | .ratL _ | .boolL _ => false
    | .fstrL _ emb => emb.any (expHasLam fu)
    | .attr e _ => expHasLam fu e
    | .call f as ks =>
        expHasLam fu f || as.any (expHasLam fu) || ks.any (fun kv => expHasLam fu kv.2)
    | .tupE es => es.any (expHasLam fu)
    | .listE es => es.any (expHasLam fu)
    | .dictE en => en.any (fun kv => expHasLam fu kv.2)
    | .binop _ a b => expHasLam fu a || expHasLam fu b
    | .cmp _ a b => expHasLam fu a || expHasLam fu b
    | .subscript e i => expHasLam fu e || expHasLam fu i
    | .sliceL lo hi st =>
        (lo.map (expHasLam fu)).getD false || (hi.map (expHasLam fu)).getD false
          || (st.map (expHasLam fu)).getD false
    | .star e => expHasLam fu e
    | .lam _ _ => true

/-- Does the target contain a lambda? -/
def targetHasLam : Nat → PyTarget → Bool
  | 0, _ => false
  | fu + 1, t =>
    match t with
    | .var _ => false
    | .tupT ts => ts.any (targetHasLam fu)
    | .attrT e _ => expHasLam fuelBound e
    | .indexT e i => expHasLam fuelBound e || expHasLam fuelBound i

/-- Does the statement define a function or class anywhere (a `def`, a
`class`, or a lambda expression), including inside nested bodies? -/
def stmtDefines : Nat → PyStmt → Bool
  | 0, _ => false
  | fu + 1, st =>
    match st with
    | .importM _ _ => false
    | .importFrom _ _ => false
    | .magic _ => false
    | .assign t e => expHasLam fuelBound e || targetHasLam fuelBound t
    | .augAssign t _ e => expHasLam fuelBound e || targetHasLam fuelBound t
    | .exprS e => expHasLam fuelBound e
    | .funcDef _ _ _ => true
    | .classDef _ _ => true
    | .forS t it body =>
        targetHasLam fuelBound t || expHasLam fuelBound it || body.any (stmtDefines fu)
    | .whileS c body => expHasLam fuelBound c || body.any (stmtDefines fu)
    | .ifS c thn els =>
        expHasLam fuelBound c || thn.any (stmtDefines fu) || els.any (stmtDefines fu)
    | .tryS body handler els fin =>
        body.any (stmtDefines fu) || handler.any (stmtDefines fu)
          || els.any (stmtDefines fu) || fin.any (stmtDefines fu)
    | .raiseS e => (e.map (expHasLam fuelBound)).getD false

/-- The program defines no function, class or lambda of its own. -/
def noLocalDefinitions (p : List PyStmt) : Bool :=
  p.all fun st => !(stmtDefines fuelBound st)

/-- Does the statement contain a `try`/`except` or a `raise` anywhere,
including inside nested bodies? -/
def stmtHasTryOrRaise : Nat → PyStmt → Bool
  | 0, _ => false
  | fu + 1, st =>
    match st with
    | .tryS _ _ _ _ => true
    | .raiseS _ => true
    | .funcDef _ _ body => body.any (stmtHasTryOrRaise fu)
    | .classDef _ body => body.any (stmtHasTryOrRaise fu)
    | .forS _ _ body => body.any (stmtHasTryOrRaise fu)
    | .whileS _ body => body.any (stmtHasTryOrRaise fu)
    | .ifS _ thn els => thn.any (stmtHasTryOrRaise fu) || els.any (stmtHasTryOrRaise fu)
    | _ => false

/-- Does the statement contain a class definition anywhere (in particular,
any locally defined exception type)? -/
def stmtHasClassDef : Nat → PyStmt → Bool
  | 0, _ => false
  | fu + 1, st =>
    match st with
    | .classDef _ _ => true
    | .funcDef _ _ body => body.any (stmtHasClassDef fu)
    | .forS _ _ body => body.any (stmtHasClassDef fu)
    | .whileS _ body => body.any (stmtHasClassDef fu)
    | .ifS _ thn els => thn.any (stmtHasClassDef fu) || els.any (stmtHasClassDef fu)
    | .tryS body handler els fin =>
        body.any (stmtHasClassDef fu) || handler.any (stmtHasClassDef fu)
          || els.any (stmtHasClassDef fu) || fin.any (stmtHasClassDef fu)
    | _ => false

/-- The program installs no exception machinery of its own: no `try`/`except`
handler, no `raise`, and no class definition (hence no exception type). -/
def noExceptionMachinery (p : List PyStmt) : Bool :=
  p.all fun st => !(stmtHasTryOrRaise fuelBound st) && !(stmtHasClassDef fuelBound st)

/-- The root variables a target writes or mutates. -/
def targetWriteRoots : Nat → PyTarget → List String
  | 0, _ => []
  | fu + 1, t =>
    match t with
    | .var x => [x]
    | .tupT ts => (ts.map (targetWriteRoots fu)).flatten
    | .attrT e _ => [rootNameOf fuelBound e]
    | .indexT e _ => [rootNameOf fuelBound e]

/-- The root variables a statement writes or mutates. -/
def stmtWriteRoots : PyStmt → List String
  | .assign t _ => targetWriteRoots fuelBound t
  | .augAssign t _ _ => targetWriteRoots fuelBound t
  | _ => []

/-- The indices of the statements of `p` that write or mutate variable `x`. -/
def writeIndicesOf (p : List PyStmt) (x : String) : List Nat :=
  (p.enum.filter fun ist => (stmtWriteRoots ist.2).contains x).map Prod.fst

/-! ## Operational semantics with exception propagation

Each external call either succeeds or raises, as decided by an oracle; the
interpreter threads a global call counter and a step counter.  `try` blocks
catch exceptions from their body; since (as we prove) the notebooks contain
no `try`, any failing external call propagates to the top.  Loops are outside
the straight-line fragment and mark the run as stuck; the notebooks never
reach them. -/

/-- An execution oracle: whether the i-th external call of the run raises,
and which way a branch at call-counter position i goes. -/
structure Oracle where
  fails : Nat → Bool
  branch : Nat → Bool

/-- An exception: one raised by the i-th external call, or one raised by an
original `raise` statement at call-counter position k. -/
inductive Exc where
  | ext (i : Nat)
  | raised (k : Nat)
  deriving Repr, DecidableEq

/-- The outcome of a run. -/
inductive Outcome where
  | ok
  | exc (e : Exc)
  | stuck
  deriving Repr, DecidableEq

/-- Index of the first failing call among the `k` calls `c, c+1, …, c+k-1`. -/
def findFail (f : Nat → Bool) : Nat → Nat → Option Nat
  | _, 0 => none
  | c, k + 1 => if f c then some c else findFail f (c + 1) k

/-- Run a statement list: result outcome, next call index, steps taken. -/
def execF : Nat → List PyStmt → Oracle → Nat → Nat → Outcome × Nat × Nat
  | 0, _, _, c, s => (.stuck, c, s)
  | _ + 1, [], _, c, s => (.ok, c, s)
  | fu + 1, st :: rest, o, c, s =>
    match st with
    | .forS _ _ _ => (.stuck, c, s)
    | .whileS _ _ => (.stuck, c, s)
    | .raiseS e =>
        match findFail o.fails c (stmtSelfCalls (.raiseS e)) with
        | some i => (.exc (.ext i), i + 1, s + 1)
        | none =>
            (.exc (.raised (c + stmtSelfCalls (.raiseS e))),
              c + stmtSelfCalls (.raiseS e), s + 1)
    | .ifS cond thn els =>
        match findFail o.fails c (expNCalls fuelBound cond) with
        | some i => (.exc (.ext i), i + 1, s + 1)
        | none =>
            match execF fu (if o.branch c then thn else els) o
                (c + expNCalls fuelBound cond) (s + 1) with
            | (.ok, c1, s1) => execF fu rest o c1 s1
            | r => r
    | .tryS body handler els fin =>
        match execF fu body o c (s + 1) with
        | (.ok, c1, s1) =>
            match execF fu els o c1 s1 with
            | (.ok, c2, s2) =>
                match execF fu fin o c2 s2 with
                | (.ok, c3, s3) => execF fu rest o c3 s3
                | r => r
            | r => r
        | (.exc _, c1, s1) =>
            match execF fu handler o c1 s1 with
            | (.ok, c2, s2) =>
                match execF fu fin o c2 s2 with
                | (.ok, c3, s3) => execF fu rest o c3 s3
                | r => r
            | r => r
        | (.stuck, c1, s1) => (.stuck, c1, s1)
    | st =>
        match findFail o.fails c (stmtSelfCalls st) with
        | some i => (.exc (.ext i), i + 1, s + 1)
        | none => execF fu rest o (c + stmtSelfCalls st) (s + 1)

/-- Run a whole notebook (fuel covering its straight-line statements). -/
def runNotebook (p : List PyStmt) (o : Oracle) : Outcome × Nat × Nat :=
  execF (p.length + 1) p o 0 0

/-- The oracle under which every external call succeeds (a normal run). -/
def neverFails : Oracle := ⟨fun _ => false, fun _ => false⟩

/-! ## Semantic models of the external calls the claims mention -/

/-- An ASE `Atoms` object, modelled by its per-atom atomic numbers, per-atom
positions (x, y, z as exact rationals) and its cell. -/
structure Atoms where
  numbers : List Nat
  positions : List (Rat × Rat × Rat)
  cell : List (List Rat)
  deriving Repr, DecidableEq

/-- ASE's atomic-number-to-chemical-symbol mapping, restricted to the
elements appearing in the notebooks' structures. -/
def chemicalSymbol (z : Nat) : String :=
  if z = 6 then "C" else if z = 7 then "N" else if z = 8 then "O"
  else if z = 9 then "F" else if z = 22 then "Ti" else if z = 29 then "Cu"
  else if z = 38 then "Sr" else if z = 57 then "La" else "?"

/-- `repeated_srtio3.copy()`: ASE's `copy` returns an independent object with
equal data, so the later in-place mutation of `sto_lto` cannot reach the
source object. -/
def copyAtoms (a : Atoms) : Atoms := a

/-- `sto_lto.symbols == "Sr"`: numpy's elementwise symbol comparison. -/
def symbolsEqMask (a : Atoms) (sym : String) : List Bool :=
  a.numbers.map fun z => chemicalSymbol z == sym

/-- `sto_lto.positions[:, 1] < t`: numpy's elementwise comparison of the
y-coordinate column. -/
def yLessMask (a : Atoms) (t : Rat) : List Bool :=
  a.positions.map fun pos => decide (pos.2.1 < t)

/-- `mask1 * mask2`: numpy's elementwise product of boolean masks. -/
def maskAnd (m1 m2 : List Bool) : List Bool := List.zipWith and m1 m2

/-- `numbers[mask] = v`: numpy's masked in-place assignment. -/
def setNumbersWhere (ns : List Nat) (mask : List Bool) (v : Nat) : List Nat :=
  List.zipWith (fun z b => if b then v else z) ns mask

/-- The Sr-to-La substitution cell of `atomic_models_with_ase.ipynb`
(`srSubstitutionStmts`), as a function of the input structure:
copy, build the two masks, and set the masked atomic numbers to 57. -/
def srToLaSubstitution (repeated : Atoms) : Atoms :=
  let sto_lto := copyAtoms repeated
  let mask0 := symbolsEqMask sto_lto "Sr"
  let mask := maskAnd mask0 (yLessMask sto_lto 7.5)
  { sto_lto with numbers := setNumbersWhere sto_lto.numbers mask 57 }

/-- The variable state after the substitution cell: both `repeated_srtio3`
and `sto_lto`.  Because `sto_lto` is a copy, the in-place mutation touches
only the copy. -/
structure SubstitutionState where
  repeated_srtio3 : Atoms
  sto_lto : Atoms
  deriving Repr, DecidableEq

/-- Run the substitution cell from a given `repeated_srtio3`. -/
def runSubstitutionCell (a : Atoms) : SubstitutionState :=
  { repeated_srtio3 := a, sto_lto := srToLaSubstitution a }

/-- A measurement dataset, modelled abstractly by its array of intensity
values (flattened; no claim depends on the shape). -/
abbrev Measurement : Type := List Rat

/-- Modelled from the spec: the on-disk file store.  The spec's "chunked
on-disk array format" writer/reader (`to_zarr`/`from_zarr`) and the `.cif`
structure-file writer/reader (`ase.io.write`/`ase.io.read`) are external
libraries, not part of this repository; we model the store they address as a
path-keyed association list. -/
def Store (α : Type) : Type := List (String × α)

/-- Write the value `v` at path `p` (replacing any previous value). -/
def storeWrite {α : Type} (st : Store α) (p : String) (v : α) : Store α :=
  (p, v) :: st.filter fun kv => kv.1 != p

/-- Read the value at path `p`. -/
def storeRead {α : Type} (st : Store α) (p : String) : Option α :=
  (st.find? fun kv => kv.1 == p).map Prod.snd

/-- The literal paths passed to `.to_zarr` calls of a program. -/
def zarrWritePaths (p : List PyStmt) : List String :=
  (callsOf p).filterMap fun c =>
    match c.callee, c.args with
    | .attr _ "to_zarr", .strL q :: _ => some q
    | _, _ => none

/-- The literal paths passed to `abtem.from_zarr` calls of a program. -/
def zarrReadPaths (p : List PyStmt) : List String :=
  (callsOf p).filterMap fun c =>
    match c.callee, c.args with
    | .attr (.name "abtem") "from_zarr", .strL q :: _ => some q
    | _, _ => none

/-- Modelled from the spec: `poisson_noise` (abtem, external to this
repository) draws Poisson-distributed counts for each pixel at the given dose
using a pseudo-random generator seeded with `seed` when one is supplied, and
with fresh per-run entropy otherwise.  The draw itself is abstracted as an
arbitrary deterministic function `draw` of the input measurement, the dose
and the generator seed; the call returns a new measurement and does not
mutate its input. -/
def poissonNoiseRun (draw : Measurement → Rat → Int → Measurement)
    (runEntropy : Int) (m : Measurement) (dose : Rat) (seed : Option Int) :
    Measurement :=
  draw m dose (seed.getD runEntropy)

/-- The keyword arguments of the `poisson_noise` call of
`image_simulation_with_abtem` (the `noisy_measurements` cell). -/
def poissonNoiseKwargs : List (String × PyExp) :=
  ((callsToName image_simulation_with_abtem "poisson_noise").map CallSite.kwargs).flatten

/-- The `seed=` argument of that call. -/
def poissonNoiseSeedArg : Option PyExp :=
  (poissonNoiseKwargs.find? fun kv => kv.1 == "seed").map Prod.snd

/-- The `dose_per_area=` argument of that call. -/
def poissonNoiseDoseArg : Option PyExp :=
  (poissonNoiseKwargs.find? fun kv => kv.1 == "dose_per_area").map Prod.snd

/-- The seed value the notebook passes to `poisson_noise`, when it is an
integer literal. -/
def notebookSeed : Option Int :=
  match poissonNoiseSeedArg with
  | some (.intL n) => some n
  | _ => none

/-- Scheduler parameters the notebooks can select. -/
structure SchedulerParams where
  scheduler : Option String
  num_workers : Option Nat
  n_workers : Option Nat
  threads_per_worker : Option Nat
  deriving Repr, DecidableEq

/-- Modelled from the spec: the lazy task scheduler (dask, external to this
repository).  Per the spec, "parallel execution is delegated entirely to an
external lazy-evaluation scheduler; the notebooks only select scheduler
parameters": the parameters choose the execution backend (threads, local
workers, a distributed client), not the value computed, so `compute`
materializes the lazy value as a function of that value alone. -/
def daskCompute (m : Measurement) (_params : SchedulerParams) : Measurement := m

/-- Modules that would indicate original parallel execution in the notebooks
themselves. -/
def parallelismModules : List String :=
  ["threading", "multiprocessing", "concurrent.futures", "asyncio"]

/-! ## Supporting lemmas -/

theorem findFail_eq_none_iff (f : Nat → Bool) (k : Nat) :
    ∀ c, (findFail f c k = none ↔ ∀ j, j < k → f (c + j) = false) := by
  induction k with
  | zero => intro c; simp [findFail]
  | succ k ih =>
    intro c
    by_cases hc : f c = true
    · simp only [findFail, hc, if_true]
      constructor
      · intro h; cases h
      · intro h
        have h0 := h 0 (Nat.succ_pos k)
        rw [Nat.add_zero] at h0
        rw [h0] at hc
        cases hc
    · have hc' : f c = false := by
        cases hfc : f c
        · rfl
        · exact absurd hfc hc
      simp only [findFail, hc', Bool.false_eq_true, if_false]
      rw [ih (c + 1)]
      constructor
      · intro h j hj
        cases j with
        | zero => simpa using hc'
        | succ j =>
          have hcj : c + (j + 1) = c + 1 + j := by omega
          rw [hcj]
          exact h j (by omega)
      · intro h j hj
        have hcj : c + 1 + j = c + (j + 1) := by omega
        rw [hcj]
        exact h (j + 1) (by omega)

theorem findFail_eq_some (f : Nat → Bool) (k : Nat) :
    ∀ c i, findFail f c k = some i → f i = true ∧ c ≤ i ∧ i < c + k := by
  induction k with
  | zero => intro c i h; cases h
  | succ k ih =>
    intro c i h
    by_cases hc : f c = true
    · simp only [findFail, hc, if_true, Option.some.injEq] at h
      subst h
      exact ⟨hc, Nat.le_refl c, by omega⟩
    · have hc' : f c = false := by
        cases hfc : f c
        · rfl
        · exact absurd hfc hc
      simp only [findFail, hc', Bool.false_eq_true, if_false] at h
      obtain ⟨h1, h2, h3⟩ := ih (c + 1) i h
      exact ⟨h1, by omega, by omega⟩

theorem execF_simple_step (fu : Nat) (st : PyStmt) (rest : List PyStmt) (o : Oracle)
    (c s : Nat) (hst : isStraight st = true) :
    execF (fu + 1) (st :: rest) o c s =
      match findFail o.fails c (stmtSelfCalls st) with
      | some i => (.exc (.ext i), i + 1, s + 1)
      | none => execF fu rest o (c + stmtSelfCalls st) (s + 1) := by
  cases st <;> first
    | rfl
    | simp [isStraight] at hst

theorem straightLine_cons {st : PyStmt} {rest : List PyStmt}
    (h : straightLine (st :: rest) = true) :
    isStraight st = true ∧ straightLine rest = true := by
  rw [straightLine, List.all_cons, Bool.and_eq_true] at h
  exact h

theorem totalCalls_cons (st : PyStmt) (rest : List PyStmt) :
    totalCalls (st :: rest) = stmtSelfCalls st + totalCalls rest := by
  simp [totalCalls]

theorem execF_straight_ok (p : List PyStmt) (o : Oracle) :
    ∀ fu c s, straightLine p = true → p.length < fu →
      (∀ j, j < totalCalls p → o.fails (c + j) = false) →
      execF fu p o c s = (.ok, c + totalCalls p, s + p.length) := by
  induction p with
  | nil =>
    intro fu c s _ hfu _
    cases fu with
    | zero => omega
    | succ fu => simp [execF, totalCalls]
  | cons st rest ih =>
    intro fu c s hp hfu hok
    obtain ⟨hst, hrest⟩ := straightLine_cons hp
    cases fu with
    | zero => simp at hfu
    | succ fu =>
      rw [execF_simple_step fu st rest o c s hst]
      have hk : stmtSelfCalls st ≤ totalCalls (st :: rest) := by
        rw [totalCalls_cons]; omega
      have hnone : findFail o.fails c (stmtSelfCalls st) = none := by
        rw [findFail_eq_none_iff]
        intro j hj
        exact hok j (by omega)
      rw [hnone]
      have hok' : ∀ j, j < totalCalls rest →
          o.fails (c + stmtSelfCalls st + j) = false := by
        intro j hj
        have he : c + stmtSelfCalls st + j = c + (stmtSelfCalls st + j) := by omega
        rw [he]
        apply hok
        rw [totalCalls_cons]
        omega
      rw [ih fu (c + stmtSelfCalls st) (s + 1) hrest (by simp at hfu ⊢; omega) hok']
      rw [totalCalls_cons]
      simp [Prod.ext_iff]
      constructor
      · omega
      · omega

theorem execF_straight_of_ok (p : List PyStmt) (o : Oracle) :
    ∀ fu c s, straightLine p = true → p.length < fu →
      (execF fu p o c s).1 = .ok →
      ∀ j, j < totalCalls p → o.fails (c + j) = false := by
  induction p with
  | nil =>
    intro fu c s _ _ _ j hj
    simp [totalCalls] at hj
  | cons st rest ih =>
    intro fu c s hp hfu hres j hj
    obtain ⟨hst, hrest⟩ := straightLine_cons hp
    cases fu with
    | zero => simp at hfu
    | succ fu =>
      rw [execF_simple_step fu st rest o c s hst] at hres
      cases hff : findFail o.fails c (stmtSelfCalls st) with
      | some i => rw [hff] at hres; cases hres
      | none =>
        rw [hff] at hres
        rw [totalCalls_cons] at hj
        by_cases hjk : j < stmtSelfCalls st
        · exact (findFail_eq_none_iff o.fails (stmtSelfCalls st) c).mp hff j hjk
        · have hj' : j - stmtSelfCalls st < totalCalls rest := by omega
          have := ih fu (c + stmtSelfCalls st) (s + 1) hrest
            (by simp at hfu ⊢; omega) hres (j - stmtSelfCalls st) hj'
          have he : c + stmtSelfCalls st + (j - stmtSelfCalls st) = c + j := by omega
          rw [he] at this
          exact this

theorem execF_straight_exc (p : List PyStmt) (o : Oracle) :
    ∀ fu c s, straightLine p = true → p.length < fu →
      (execF fu p o c s).1 = .ok ∨
        ∃ i, (execF fu p o c s).1 = .exc (.ext i) ∧ o.fails i = true ∧
          c ≤ i ∧ i < c + totalCalls p := by
  induction p with
  | nil =>
    intro fu c s _ hfu
    cases fu with
    | zero => omega
    | succ fu => left; rfl
  | cons st rest ih =>
    intro fu c s hp hfu
    obtain ⟨hst, hrest⟩ := straightLine_cons hp
    cases fu with
    | zero => simp at hfu
    | succ fu =>
      rw [execF_simple_step fu st rest o c s hst]
      cases hff : findFail o.fails c (stmtSelfCalls st) with
      | some i =>
        right
        obtain ⟨h1, h2, h3⟩ := findFail_eq_some o.fails (stmtSelfCalls st) c i hff
        refine ⟨i, rfl, h1, h2, ?_⟩
        rw [totalCalls_cons]
        omega
      | none =>
        rcases ih fu (c + stmtSelfCalls st) (s + 1) hrest (by simp at hfu ⊢; omega)
          with h | ⟨i, h1, h2, h3, h4⟩
        · left; exact h
        · right
          refine ⟨i, h1, h2, by omega, ?_⟩
          rw [totalCalls_cons]
          omega

theorem execF_straight_steps (p : List PyStmt) (o : Oracle) :
    ∀ fu c s, straightLine p = true → p.length < fu →
      (execF fu p o c s).2.2 ≤ s + p.length := by
  induction p with
  | nil =>
    intro fu c s _ hfu
    cases fu with
    | zero => omega
    | succ fu => simp [execF]
  | cons st rest ih =>
    intro fu c s hp hfu
    obtain ⟨hst, hrest⟩ := straightLine_cons hp
    cases fu with
    | zero => simp at hfu
    | succ fu =>
      rw [execF_simple_step fu st rest o c s hst]
      cases hff : findFail o.fails c (stmtSelfCalls st) with
      | some i => simp [List.length_cons]
      | none =>
        have := ih fu (c + stmtSelfCalls st) (s + 1) hrest (by simp at hfu ⊢; omega)
        simp [List.length_cons]
        omega

theorem storeRead_storeWrite {α : Type} (st : Store α) (p : String) (v : α) :
    storeRead (storeWrite st p v) p = some v := by
  simp [storeRead, storeWrite, List.find?]

theorem chemicalSymbol_eq_sr_iff (z : Nat) : chemicalSymbol z = "Sr" ↔ z = 38 := by
  unfold chemicalSymbol
  split_ifs with h1 h2 h3 h4 h5 h6 h7 h8 <;> simp_all

theorem setNumbersWhere_spec (ns : List Nat) :
    ∀ ps : List (Rat × Rat × Rat),
      setNumbersWhere ns
          (maskAnd (ns.map fun z => chemicalSymbol z == "Sr")
            (ps.map fun pos => decide (pos.2.1 < 7.5))) 57 =
        List.zipWith
          (fun z pos => if chemicalSymbol z = "Sr" ∧ pos.2.1 < (7.5 : Rat) then 57 else z)
          ns ps := by
  induction ns with
  | nil => intro ps; rfl
  | cons z ns ih =>
    intro ps
    cases ps with
    | nil => rfl
    | cons pos ps =>
      simp only [setNumbersWhere, maskAnd, List.map_cons, List.zipWith_cons_cons] at *
      rw [ih ps]
      congr 1
      by_cases h1 : chemicalSymbol z = "Sr" <;> by_cases h2 : pos.2.1 < (7.5 : Rat) <;>
        simp [h1, h2]

/-- Does the string `p` end with the string `ext`?  (A character-list suffix
check, so that it computes by kernel reduction.) -/
def pathEndsWith (p ext : String) : Bool := List.isSuffixOf ext.data p.data

/-- Characterization of a straight-line notebook run: it raises exactly when
some external call in range raises, and any surfacing exception is the
unchanged external one. -/
theorem runNotebook_straight_char (p : List PyStmt) (hp : straightLine p = true)
    (o : Oracle) :
    ((runNotebook p o).1 ≠ Outcome.ok ↔
        ∃ i, i < totalCalls p ∧ o.fails i = true)
    ∧ ((runNotebook p o).1 = Outcome.ok ∨
        ∃ i, (runNotebook p o).1 = Outcome.exc (Exc.ext i) ∧ o.fails i = true) := by
  have hfu : p.length < p.length + 1 := Nat.lt_succ_self _
  simp only [runNotebook]
  constructor
  · constructor
    · intro hne
      rcases execF_straight_exc p o (p.length + 1) 0 0 hp hfu with h | ⟨i, h1, h2, _, h4⟩
      · exact absurd h hne
      · exact ⟨i, by simpa using h4, h2⟩
    · rintro ⟨i, hi, hfi⟩ hok
      have h0 := execF_straight_of_ok p o (p.length + 1) 0 0 hp hfu hok i hi
      rw [Nat.zero_add] at h0
      rw [h0] at hfi
      cases hfi
  · rcases execF_straight_exc p o (p.length + 1) 0 0 hp hfu with h | ⟨i, h1, h2, _, _⟩
    · left; exact h
    · right; exact ⟨i, h1, h2⟩

/-! ## The claims -/

/-- C1: no multislice/PRISM simulation engine is implemented in this
repository.  The notebooks define no function, class or lambda of their own
(so no body computing multislice propagation, PRISM reduction or potential
building exists in the source files), and every `multislice`, `scan` and
`build` computation is a method call on an object every one of whose
bindings is a constructor/factory call into the external `abtem` library,
invoked on configured arguments. -/
theorem claim_C1_no_engine_implemented :
    noLocalDefinitions allNotebookStmts = true
    ∧ engineCallsOf atomic_models_with_ase = []
    ∧ engineCallsOf image_simulation_with_abtem =
        [("potential", "build"), ("probe", "build"), ("focal_series_probe", "build"),
         ("focal_series_probe", "build"), ("probe", "multislice"), ("probe", "scan")]
    ∧ engineCallsOf supplement_file =
        [("plane_wave", "multislice"), ("probe", "scan"),
         ("frozen_phonon_potential", "build"), ("probe", "multislice"), ("S", "build"),
         ("S", "build"), ("S", "scan"), ("probe", "multislice"), ("probe", "multislice"),
         ("probe", "multislice"), ("potential", "build")]
    ∧ engineCallsExternallyBound image_simulation_with_abtem = true
    ∧ engineCallsExternallyBound supplement_file = true :=
  ⟨rfl, rfl, rfl, rfl, rfl, rfl⟩

/-- C2 (counterexample): the claim "running the notebooks leaves no on-disk
state authored by this repository (no file is created or written by notebook
code)" is false — the list of paths written by notebook code is nonempty. -/
theorem claim_C2_counterexample : writePaths allNotebookStmts ≠ [] := by
  intro h
  have h4 : writePaths allNotebookStmts =
      ["sto_lto.cif", "measurement_4d.zarr", "../intro_multislice/potential.gif",
       "cluster_on_carbon.cfg"] := rfl
  rw [h4] at h
  cases h

/-- C2 (amended): notebook code does create on-disk state — it writes exactly
the structure file `sto_lto.cif`, the measurement store `measurement_4d.zarr`,
the animation `../intro_multislice/potential.gif` and the structure file
`cluster_on_carbon.cfg`, and nothing else. -/
theorem claim_C2_writes_exactly :
    writePaths allNotebookStmts =
      ["sto_lto.cif", "measurement_4d.zarr", "../intro_multislice/potential.gif",
       "cluster_on_carbon.cfg"] := rfl

/-- C3: every notebook is straight-line — each statement is an import, a
notebook magic, an assignment, an augmented assignment or an expression
statement (no loop, no branch, no `try`, no function or class definition, so
no recursion) — and on every run (any oracle) the interpreter takes at most
as many steps as there are statements, a fixed static bound, taking exactly
that many on a failure-free run. -/
theorem claim_C3_straight_line_and_bounded :
    (straightLine atomic_models_with_ase = true
      ∧ atomic_models_with_ase.length = 40
      ∧ (∀ o : Oracle, (runNotebook atomic_models_with_ase o).2.2 ≤ 40)
      ∧ runNotebook atomic_models_with_ase neverFails =
          (.ok, totalCalls atomic_models_with_ase, 40))
    ∧ (straightLine image_simulation_with_abtem = true
      ∧ image_simulation_with_abtem.length = 66
      ∧ (∀ o : Oracle, (runNotebook image_simulation_with_abtem o).2.2 ≤ 66)
      ∧ runNotebook image_simulation_with_abtem neverFails =
          (.ok, totalCalls image_simulation_with_abtem, 66))
    ∧ (straightLine supplement_file = true
      ∧ supplement_file.length = 127
      ∧ (∀ o : Oracle, (runNotebook supplement_file o).2.2 ≤ 127)
      ∧ runNotebook supplement_file neverFails =
          (.ok, totalCalls supplement_file, 127))
    ∧ noLocalDefinitions allNotebookStmts = true := by
  refine ⟨⟨rfl, rfl, ?_, ?_⟩, ⟨rfl, rfl, ?_, ?_⟩, ⟨rfl, rfl, ?_, ?_⟩, rfl⟩
  · intro o
    have h := execF_straight_steps atomic_models_with_ase o
      (atomic_models_with_ase.length + 1) 0 0 rfl (Nat.lt_succ_self _)
    simpa [runNotebook] using h
  · have h := execF_straight_ok atomic_models_with_ase neverFails
      (atomic_models_with_ase.length + 1) 0 0 rfl (Nat.lt_succ_self _) (fun j hj => rfl)
    simpa [runNotebook] using h
  · intro o
    have h := execF_straight_steps image_simulation_with_abtem o
      (image_simulation_with_abtem.length + 1) 0 0 rfl (Nat.lt_succ_self _)
    simpa [runNotebook] using h
  · have h := execF_straight_ok image_simulation_with_abtem neverFails
      (image_simulation_with_abtem.length + 1) 0 0 rfl (Nat.lt_succ_self _)
      (fun j hj => rfl)
    simpa [runNotebook] using h
  · intro o
    have h := execF_straight_steps supplement_file o
      (supplement_file.length + 1) 0 0 rfl (Nat.lt_succ_self _)
    simpa [runNotebook] using h
  · have h := execF_straight_ok supplement_file neverFails
      (supplement_file.length + 1) 0 0 rfl (Nat.lt_succ_self _) (fun j hj => rfl)
    simpa [runNotebook] using h

/-- C4: every atomic-structure file operation of the notebooks (via
`ase.io.read`/`ase.io.write` and their imported aliases) addresses exactly
the files `srtio3.cif`, `sto_lto.cif` and `cluster_on_carbon.cfg`, and every
such path carries the `.cif` extension or the `.cfg` extension — both formats
occur and no other structure-file format is used. -/
theorem claim_C4_structure_file_formats :
    structureOpsOf allNotebookStmts =
      [.fread "srtio3.cif", .fwrite "sto_lto.cif", .fread "sto_lto.cif",
       .fread "sto_lto.cif", .fread "sto_lto.cif", .fread "cluster_on_carbon.cfg",
       .fwrite "cluster_on_carbon.cfg"]
    ∧ ((structureOpsOf allNotebookStmts).map FileOp.path).eraseDups =
        ["srtio3.cif", "sto_lto.cif", "cluster_on_carbon.cfg"]
    ∧ (structureOpsOf allNotebookStmts).all
        (fun op => pathEndsWith op.path ".cif" || pathEndsWith op.path ".cfg") = true :=
  ⟨rfl, rfl, rfl⟩

/-- C5: the 4D measurement is persisted with `to_zarr` to
`measurement_4d.zarr` and read back with `from_zarr` from the same path; the
only file operations the supplement performs on that path are that write
followed by that read, and under the store model of the external chunked
array format, reading back after writing returns exactly the measurement
written. -/
theorem claim_C5_zarr_round_trip :
    zarrWritePaths supplement_file = ["measurement_4d.zarr"]
    ∧ zarrReadPaths supplement_file = ["measurement_4d.zarr"]
    ∧ (fileOpsOf supplement_file).filter
        (fun op => op.path == "measurement_4d.zarr") =
        [.fwrite "measurement_4d.zarr", .fread "measurement_4d.zarr"]
    ∧ ∀ (st : Store Measurement) (m : Measurement),
        storeRead (storeWrite st "measurement_4d.zarr" m) "measurement_4d.zarr" =
          some m :=
  ⟨rfl, rfl, rfl, fun st m => storeRead_storeWrite st "measurement_4d.zarr" m⟩

/-- C6: the notebooks define no exception type and install no handler (no
`try`/`except`, no `raise`, no class definition anywhere), and for every
oracle the run of each notebook raises exactly when some external call in
range raises, the surfacing exception being the external one unchanged. -/
theorem claim_C6_exception_propagation :
    noExceptionMachinery allNotebookStmts = true
    ∧ (∀ o : Oracle,
        ((runNotebook atomic_models_with_ase o).1 ≠ Outcome.ok ↔
          ∃ i, i < totalCalls atomic_models_with_ase ∧ o.fails i = true)
        ∧ ((runNotebook atomic_models_with_ase o).1 = Outcome.ok ∨
          ∃ i, (runNotebook atomic_models_with_ase o).1 = Outcome.exc (Exc.ext i)
            ∧ o.fails i = true))
    ∧ (∀ o : Oracle,
        ((runNotebook image_simulation_with_abtem o).1 ≠ Outcome.ok ↔
          ∃ i, i < totalCalls image_simulation_with_abtem ∧ o.fails i = true)
        ∧ ((runNotebook image_simulation_with_abtem o).1 = Outcome.ok ∨
          ∃ i, (runNotebook image_simulation_with_abtem o).1 = Outcome.exc (Exc.ext i)
            ∧ o.fails i = true))
    ∧ (∀ o : Oracle,
        ((runNotebook supplement_file o).1 ≠ Outcome.ok ↔
          ∃ i, i < totalCalls supplement_file ∧ o.fails i = true)
        ∧ ((runNotebook supplement_file o).1 = Outcome.ok ∨
          ∃ i, (runNotebook supplement_file o).1 = Outcome.exc (Exc.ext i)
            ∧ o.fails i = true)) :=
  ⟨rfl, fun o => runNotebook_straight_char atomic_models_with_ase rfl o,
    fun o => runNotebook_straight_char image_simulation_with_abtem rfl o,
    fun o => runNotebook_straight_char supplement_file rfl o⟩

/-- C7: the notebooks implement no parallel execution of their own — no
parallelism module is imported (the imports are exactly the listed scientific
stack), their only parallelism-related arguments are `scheduler="threads"`,
`num_workers=2` on one `compute` call and `n_workers=4`,
`threads_per_worker=1` on the one `Client` construction — and under the
spec's model of the external scheduler, the computed value does not depend on
the scheduler parameters chosen. -/
theorem claim_C7_scheduler_parameters_only :
    (importedModules allNotebookStmts).eraseDups =
      ["abtem", "ase", "matplotlib.pyplot", "numpy", "ase.visualize", "ase.build",
       "ase.io", "dask.distributed", "ase.cluster"]
    ∧ parallelismModules.all
        (fun m => !(importedModules allNotebookStmts).contains m) = true
    ∧ (callsToName allNotebookStmts "compute").map CallSite.kwargs =
        [[], [], [], [], [], [], [], [], [], [], [],
         [("scheduler", .strL "threads"), ("num_workers", .intL 2)], [], []]
    ∧ (callsToName allNotebookStmts "Client").map CallSite.kwargs =
        [[("n_workers", .intL 4), ("threads_per_worker", .intL 1)]]
    ∧ ∀ (m : Measurement) (p q : SchedulerParams), daskCompute m p = daskCompute m q :=
  ⟨rfl, rfl, rfl, rfl, fun m p q => rfl⟩

/-- C8: in the Sr-to-La substitution cell, exactly those atoms whose chemical
symbol is "Sr" and whose y coordinate is strictly below 7.5 get atomic number
57; the atom count, all positions and the cell are unchanged, and the copied
source `repeated_srtio3` is unchanged.  The last conjunct ties the model to
the transcription: statements 26–29 of the atomic-models notebook are exactly
the substitution cell. -/
theorem claim_C8_sr_to_la_substitution (a : Atoms)
    (h : a.numbers.length = a.positions.length) :
    (srToLaSubstitution a).numbers =
      List.zipWith
        (fun z pos => if chemicalSymbol z = "Sr" ∧ pos.2.1 < (7.5 : Rat) then 57 else z)
        a.numbers a.positions
    ∧ (srToLaSubstitution a).numbers.length = a.numbers.length
    ∧ (srToLaSubstitution a).positions = a.positions
    ∧ (srToLaSubstitution a).cell = a.cell
    ∧ (runSubstitutionCell a).repeated_srtio3 = a
    ∧ (atomic_models_with_ase.drop 26).take 4 = srSubstitutionStmts := by
  have hs := setNumbersWhere_spec a.numbers a.positions
  refine ⟨hs, ?_, rfl, rfl, rfl, rfl⟩
  have hlen : (srToLaSubstitution a).numbers.length =
      min a.numbers.length a.positions.length := by
    rw [show (srToLaSubstitution a).numbers =
        List.zipWith
          (fun z pos => if chemicalSymbol z = "Sr" ∧ pos.2.1 < (7.5 : Rat) then 57 else z)
          a.numbers a.positions from hs]
    exact List.length_zipWith _ _ _
  rw [hlen, h]
  exact Nat.min_self _

/-- A concrete structure for the C8 witness: two Sr atoms (one below, one
above y = 7.5), a Ti atom and a La atom. -/
def substitutionWitnessAtoms : Atoms :=
  { numbers := [38, 38, 22, 57],
    positions := [(0, 5, 0), (0, 8, 0), (0, 3, 0), (0, 1, 0)],
    cell := [[12, 0, 0], [0, 16, 0], [0, 0, 40]] }

/-- C8 (witness): the substitution theorem applied to a concrete structure,
with its well-formedness hypothesis discharged by computation. -/
theorem claim_C8_witness :
    substitutionWitnessAtoms.numbers.length = substitutionWitnessAtoms.positions.length
    ∧ ((srToLaSubstitution substitutionWitnessAtoms).numbers =
        List.zipWith
          (fun z pos =>
            if chemicalSymbol z = "Sr" ∧ pos.2.1 < (7.5 : Rat) then 57 else z)
          substitutionWitnessAtoms.numbers substitutionWitnessAtoms.positions
      ∧ (srToLaSubstitution substitutionWitnessAtoms).numbers.length =
          substitutionWitnessAtoms.numbers.length
      ∧ (srToLaSubstitution substitutionWitnessAtoms).positions =
          substitutionWitnessAtoms.positions
      ∧ (srToLaSubstitution substitutionWitnessAtoms).cell =
          substitutionWitnessAtoms.cell
      ∧ (runSubstitutionCell substitutionWitnessAtoms).repeated_srtio3 =
          substitutionWitnessAtoms
      ∧ (atomic_models_with_ase.drop 26).take 4 = srSubstitutionStmts) :=
  ⟨by decide, claim_C8_sr_to_la_substitution substitutionWitnessAtoms (by decide)⟩

/-- C9: the Poisson-noise step of `image_simulation_with_abtem` passes the
literal arguments `dose_per_area=1e4` and `seed=100`; under the seeded-PRNG
model of the external `poisson_noise`, the result is therefore independent of
the per-run entropy (two runs on the same input measurement produce identical
`noisy_measurements`), and `tiled_measurements` is written by no statement
other than its own creation (statement 63). -/
theorem claim_C9_poisson_noise_deterministic :
    poissonNoiseSeedArg = some (.intL 100)
    ∧ poissonNoiseDoseArg = some (.ratL 1e4)
    ∧ notebookSeed = some 100
    ∧ (∀ (draw : Measurement → Rat → Int → Measurement) (e1 e2 : Int)
        (m : Measurement),
        poissonNoiseRun draw e1 m 1e4 notebookSeed =
          poissonNoiseRun draw e2 m 1e4 notebookSeed)
    ∧ writeIndicesOf image_simulation_with_abtem "tiled_measurements" = [63]
    ∧ image_simulation_with_abtem.get? 63 =
        some (.assign (.var "tiled_measurements")
          (.call (.attr (.name "blurred_measurements") "tile")
            [.tupE [.intL 8, .intL 3]] [])) :=
  ⟨rfl, rfl, rfl, fun draw e1 e2 m => rfl, rfl, rfl⟩

/-- C10: the structure file `sto_lto.cif` round-trips between notebooks: the
atomic-models notebook writes it (its only structure write), both
image-simulation notebooks read exactly that path, and under the store model
of the external `.cif` codec the structure read back equals the structure
written — same chemical species, same positions, same cell. -/
theorem claim_C10_sto_lto_round_trip :
    structureOpsOf atomic_models_with_ase = [.fread "srtio3.cif", .fwrite "sto_lto.cif"]
    ∧ structureOpsOf image_simulation_with_abtem = [.fread "sto_lto.cif"]
    ∧ structureOpsOf image_simulation_with_abtem_supplement =
        [.fread "sto_lto.cif", .fread "sto_lto.cif", .fread "cluster_on_carbon.cfg"]
    ∧ ∀ (st : Store Atoms) (a : Atoms),
        storeRead (storeWrite st "sto_lto.cif" a) "sto_lto.cif" = some a
        ∧ (storeRead (storeWrite st "sto_lto.cif" a) "sto_lto.cif").map
            (fun r => r.numbers.map chemicalSymbol) = some (a.numbers.map chemicalSymbol)
        ∧ (storeRead (storeWrite st "sto_lto.cif" a) "sto_lto.cif").map Atoms.positions =
            some a.positions
        ∧ (storeRead (storeWrite st "sto_lto.cif" a) "sto_lto.cif").map Atoms.cell =
            some a.cell := by
  refine ⟨rfl, rfl, rfl, fun st a => ?_⟩
  have h := storeRead_storeWrite st "sto_lto.cif" a
  exact ⟨h, by rw [h]; rfl, by rw [h]; rfl, by rw [h]; rfl⟩

end PnmRetreat
